import Mathlib

/-!
Shallow embedding of the m-dash-detector content script
(`src/src/content.ts`) and, where a claim needs it, of the development
server (`src/unnamed/part_000`).

Text is modelled as `List Char`, DOM trees as the nested inductive
`Node`, and the content script's module-level mutable state
(`emDashCount`, `svgInjected`, `warningBanner`, `mutationObserver`,
`debounceTimeout`, `historyPatched`, the patched history methods and the
registered event listeners) as the record `PageState`, with every
function of the script becoming a pure state transformer.
-/

namespace MDash

/-- The em-dash character U+2014 (`EM_DASH` in `content.ts`). -/
def EM_DASH : Char := Char.ofNat 0x2014

/-- Models JavaScript `text.includes(EM_DASH)`. -/
def hasDash : List Char → Bool
  | [] => false
  | c :: rest => c = EM_DASH || hasDash rest

/-- Number of em-dash characters in a piece of text. -/
def dashCount : List Char → Nat
  | [] => 0
  | c :: rest => (if c = EM_DASH then 1 else 0) + dashCount rest

/-- Models JavaScript `text.split(EM_DASH)` for the single-character
separator: the (always nonempty) list of maximal dash-free pieces. -/
def splitOnDash : List Char → List (List Char)
  | [] => [[]]
  | c :: rest =>
      if c = EM_DASH then [] :: splitOnDash rest
      else
        match splitOnDash rest with
        | [] => [[c]]
        | p :: ps => (c :: p) :: ps

/-- Re-joins the pieces of a split with an em-dash between consecutive
pieces (the inverse of `splitOnDash`). -/
def joinWithDash : List (List Char) → List Char
  | [] => []
  | [p] => p
  | p :: q :: ps => p ++ EM_DASH :: joinWithDash (q :: ps)

/-- A DOM node: an element with a tag name, a class list and children,
or a text node. Only the parts of a DOM node the content script reads
(tag, class list, children, text data) are modelled; the randomized
animation-delay and background-offset styles set on highlight spans are
presentation-only and never read back by the logic. -/
inductive Node where
  | elem (tag : String) (classes : List String) (children : List Node)
  | text (s : List Char)

/-- Concatenated text content of a forest, in document order
(`textContent` of the DOM). -/
def textContentList : List Node → List Char
  | [] => []
  | Node.text s :: rest => s ++ textContentList rest
  | Node.elem _ _ cs :: rest => textContentList cs ++ textContentList rest

/-- Concatenated text content of a single node. -/
def textContent (n : Node) : List Char := textContentList [n]

/-- Number of elements carrying the `mdash-highlight` class in a
forest (the highlight elements created by the script). -/
def countHighlightsList : List Node → Nat
  | [] => 0
  | Node.text _ :: rest => countHighlightsList rest
  | Node.elem _ classes cs :: rest =>
      (if classes.contains "mdash-highlight" then 1 else 0) +
        countHighlightsList cs + countHighlightsList rest

/-- `countHighlightsList` for a single node. -/
def countHighlights (n : Node) : Nat := countHighlightsList [n]

/-- The class test done by the tree-walker filter in `walkTextNodes`:
the parent's class list contains `mdash-highlight` or
`mdash-warning-banner`. -/
def isOwnClasses (classes : List String) : Bool :=
  classes.contains "mdash-highlight" || classes.contains "mdash-warning-banner"

/-- The `acceptNode` filter of the tree walker in `walkTextNodes`:
a text node is accepted when its parent element is not one of the
script's own elements (by class) and its text contains an em-dash. -/
def acceptText (parentClasses : List String) (s : List Char) : Bool :=
  !(isOwnClasses parentClasses) && hasDash s

/-- The highlight span created for one matched em-dash in
`highlightTextNode`: `<span class="mdash-highlight">—</span>`. -/
def highlightSpan : Node :=
  Node.elem "SPAN" ["mdash-highlight"] [Node.text [EM_DASH]]

/-- The document fragment built in `highlightTextNode` from the pieces
of `text.split(EM_DASH)`: each nonempty piece becomes a text node, and
a highlight span is placed between consecutive pieces (after every
piece except the last). -/
def fragmentOfParts : List (List Char) → List Node
  | [] => []
  | [p] => if p = [] then [] else [Node.text p]
  | p :: q :: ps =>
      (if p = [] then [] else [Node.text p]) ++
        highlightSpan :: fragmentOfParts (q :: ps)

/-- `highlightTextNode(textNode)`: returns the nodes that stand in the
tree where the text node stood afterwards, together with the amount
added to `emDashCount`. Mirrors the source order faithfully: the
counter is incremented as soon as the text contains an em-dash, and
only afterwards is the replacement guarded by
`textNode.parentNode?.replaceChild` — with no parent the DOM is left
unchanged but the counter increment has already happened. -/
def highlightTextNode (hasParent : Bool) (s : List Char) : List Node × Nat :=
  if !(hasDash s) then ([Node.text s], 0)
  else
    let parts := splitOnDash s
    let numMatches := parts.length - 1
    if hasParent then (fragmentOfParts parts, numMatches)
    else ([Node.text s], numMatches)

/-- The skip list at the top of `walkTextNodes`. -/
def skipTags : List String :=
  ["SCRIPT", "STYLE", "NOSCRIPT", "IFRAME", "TEXTAREA", "INPUT"]

/-- The tree-walker pass of `walkTextNodes` over a forest whose parent
element has class list `parentClasses`: every text node accepted by
the filter is replaced by its highlight fragment, and the per-node
match counts are summed. The source first collects the accepted text
nodes and then replaces each; since collection precedes every
replacement and each replacement is local to one text node, the fused
single pass below computes the same final tree and the same total
count. Note that the walker descends into every element — the
`skipTags` guard of `walkTextNodes` applies only to the root element
it is called on, not to descendants. -/
def walkList (parentClasses : List String) : List Node → List Node × Nat
  | [] => ([], 0)
  | Node.text s :: rest =>
      let here :=
        if acceptText parentClasses s then highlightTextNode true s
        else ([Node.text s], 0)
      let r := walkList parentClasses rest
      (here.1 ++ r.1, here.2 + r.2)
  | Node.elem tag classes cs :: rest =>
      let inner := walkList classes cs
      let r := walkList parentClasses rest
      (Node.elem tag classes inner.1 :: r.1, inner.2 + r.2)

/-- `walkTextNodes(element)`: returns the element after the pass and
the amount added to `emDashCount`. If the element's tag is in the skip
list the function returns immediately; otherwise all text nodes of the
subtree are walked. (The source only ever calls this on elements; on a
text node it is the identity here.) -/
def walkTextNodes : Node → Node × Nat
  | Node.text s => (Node.text s, 0)
  | Node.elem tag classes cs =>
      if skipTags.contains tag then (Node.elem tag classes cs, 0)
      else
        let r := walkList classes cs
        (Node.elem tag classes r.1, r.2)

/-- The banner element, as far as the script touches it: creation sets
its `innerHTML` to a warning-text span (`"Em Dashes"`) and a count span
(the rendered count); the update path only rewrites the count span's
text (`countEl.textContent = String(emDashCount)`). The element being
kept (rather than recreated) shows up here as every field other than
`countText` being preserved by the update path. -/
structure BannerEl where
  warningText : String
  countText : String
deriving DecidableEq

/-- The content script's module-level mutable state, plus the parts of
the host the script observes or patches. The banner is kept as a
separate field rather than a child of `body` — the script appends it to
`document.body`, but its own text (`"Em Dashes"` and digits) never
contains an em-dash and its spans are never matched, so keeping it out
of the scanned tree is observationally equivalent for every scan.
`sparkleInstalls` counts how often the CSS custom property was actually
set on the document root (the body of `injectSparkleSvg` past its
guard). `pendingRescan` models a live `debounceTimeout`, and
`historyEntries` gives the original `history.pushState` an observable
effect. -/
structure PageState where
  emDashCount : Nat
  svgInjected : Bool
  sparkleInstalls : Nat
  warningBanner : Option BannerEl
  body : Node
  observerConnected : Bool
  pendingRescan : Bool
  popstateListener : Bool
  hashchangeListener : Bool
  historyPatched : Bool
  pushStateWrapped : Bool
  replaceStateWrapped : Bool
  historyEntries : Nat

/-- `injectSparkleSvg()`: guarded by `svgInjected`; past the guard it
sets the flag and installs the encoded SVG as the CSS custom property
on `document.documentElement` (counted by `sparkleInstalls`). -/
def injectSparkleSvg (s : PageState) : PageState :=
  if s.svgInjected then s
  else { s with svgInjected := true, sparkleInstalls := s.sparkleInstalls + 1 }

/-- `removeBanner()`: removes the banner element and nulls the
reference; a no-op when no banner exists. -/
def removeBanner (s : PageState) : PageState :=
  { s with warningBanner := none }

/-- The fixed warning text put into the banner at creation. -/
def bannerWarningText : String := "Em Dashes"

/-- `updateWarningBanner()`: with a zero count, remove the banner;
with a nonzero count, create the banner when absent, otherwise rewrite
only the count span's text. -/
def updateWarningBanner (s : PageState) : PageState :=
  if s.emDashCount = 0 then removeBanner s
  else
    match s.warningBanner with
    | none =>
        let created := BannerEl.mk bannerWarningText (toString s.emDashCount)
        { s with warningBanner := some created }
    | some b =>
        let updated := BannerEl.mk b.warningText (toString s.emDashCount)
        { s with warningBanner := some updated }

/-- `scanPage()`: reset the counter, walk the whole body, inject the
sparkle SVG when anything was found, then update the banner. -/
def scanPage (s : PageState) : PageState :=
  let s1 := { s with emDashCount := 0 }
  let r := walkTextNodes s1.body
  let s2 := { s1 with body := r.1, emDashCount := s1.emDashCount + r.2 }
  let s3 := if 0 < s2.emDashCount then injectSparkleSvg s2 else s2
  updateWarningBanner s3

/-- Triggering `debouncedRescan()`: any previously pending timeout is
cleared and a fresh one is armed, so afterwards exactly one rescan is
pending. The actual `scanPage` call happens when the timer fires
(`timerFire`). -/
def triggerDebouncedRescan (s : PageState) : PageState :=
  { s with pendingRescan := true }

/-- The debounce timer firing: clears `debounceTimeout` and runs the
wrapped `scanPage`; nothing happens when no timeout is pending. -/
def timerFire (s : PageState) : PageState :=
  if s.pendingRescan then scanPage { s with pendingRescan := false }
  else s

/-- Whether a forest holds an element carrying the highlight class,
at any depth. -/
def containsHighlightsList : List Node → Bool
  | [] => false
  | Node.text _ :: rest => containsHighlightsList rest
  | Node.elem _ classes cs :: rest =>
      classes.contains "mdash-highlight" || containsHighlightsList cs ||
        containsHighlightsList rest

/-- `containsHighlights(node)`: false for non-element nodes; true when
the element itself carries the highlight class or some descendant
element does (`querySelector(".mdash-highlight") !== null`). -/
def containsHighlights (n : Node) : Bool := containsHighlightsList [n]

/-- One `MutationRecord` of a batch: the removed and added nodes. -/
structure MutationRecord where
  removedNodes : List Node
  addedNodes : List Node

/-- The removed-node check of the observer callback: an element that is
not the script's own banner and that contains (or is) a highlight
element forces a full rescan. -/
def removedNeedsFullRescan (n : Node) : Bool :=
  match n with
  | Node.text _ => false
  | Node.elem _ classes _ =>
      !(classes.contains "mdash-warning-banner") && containsHighlights n

/-- The added-node handling of the observer callback, for one node:
returns the nodes standing at its place afterwards, the counter delta,
and whether `needsUpdate` was set. The script's own highlight and
banner elements are skipped; other added elements get an incremental
`walkTextNodes`; an added text node containing an em-dash gets a direct
`highlightTextNode` (such a node, freshly attached to the document, has
a parent). -/
def processAdded (n : Node) : List Node × Nat × Bool :=
  match n with
  | Node.elem tag classes cs =>
      if classes.contains "mdash-highlight" then ([n], 0, false)
      else if classes.contains "mdash-warning-banner" then ([n], 0, false)
      else
        let r := walkTextNodes (Node.elem tag classes cs)
        ([r.1], r.2, true)
  | Node.text s =>
      if hasDash s then
        let r := highlightTextNode true s
        (r.1, r.2, true)
      else ([Node.text s], 0, false)

/-- Appending nodes as the last children of the body element. The
observer callback does not itself move nodes — the page added them —
so a delivered batch is modelled as the added nodes (as transformed by
the callback) becoming new last children of the body, the position the
claims' scenarios use ("adding a new subtree under the body"). -/
def appendToBody (body : Node) (ns : List Node) : Node :=
  match body with
  | Node.elem t c cs => Node.elem t c (cs ++ ns)
  | Node.text s => Node.text s

/-- The `MutationObserver` callback over one delivered batch: removed
nodes can set `needsFullRescan`, added nodes are scanned incrementally
(additively) and can set `needsUpdate`; afterwards a full rescan is
debounced, or the banner is updated in place, or nothing happens. -/
def handleMutations (s : PageState) (muts : List MutationRecord) : PageState :=
  let removedAll := (muts.map (fun m => m.removedNodes)).flatten
  let addedAll := (muts.map (fun m => m.addedNodes)).flatten
  let needsFullRescan := removedAll.any removedNeedsFullRescan
  let processed := addedAll.map processAdded
  let needsUpdate := (processed.map (fun p => p.2.2)).any id
  let delta := (processed.map (fun p => p.2.1)).sum
  let newChildren := (processed.map (fun p => p.1)).flatten
  let s1 := { s with
    body := appendToBody s.body newChildren,
    emDashCount := s.emDashCount + delta }
  if needsFullRescan then triggerDebouncedRescan s1
  else if needsUpdate then updateWarningBanner s1
  else s1

/-- Delivery of a mutation batch: the callback only runs while the
observer subscription is connected. -/
def deliverMutations (s : PageState) (muts : List MutationRecord) : PageState :=
  if s.observerConnected then handleMutations s muts else s

/-- A `popstate` event: routed to the debounced rescan while the
listener is registered. -/
def firePopstate (s : PageState) : PageState :=
  if s.popstateListener then triggerDebouncedRescan s else s

/-- A `hashchange` event: routed to the debounced rescan while the
listener is registered. -/
def fireHashchange (s : PageState) : PageState :=
  if s.hashchangeListener then triggerDebouncedRescan s else s

/-- The original (unpatched) `history.pushState`: pushes a new history
entry and nothing else. -/
def originalPushState (s : PageState) : PageState :=
  { s with historyEntries := s.historyEntries + 1 }

/-- The original (unpatched) `history.replaceState`: replaces the
current entry, leaving the entry count unchanged. -/
def originalReplaceState (s : PageState) : PageState := s

/-- Calling `history.pushState`: the patched wrapper calls through to
the original and then triggers the debounced rescan; unpatched, only
the original runs. -/
def callPushState (s : PageState) : PageState :=
  if s.pushStateWrapped then triggerDebouncedRescan (originalPushState s)
  else originalPushState s

/-- Calling `history.replaceState`: as for `callPushState`. -/
def callReplaceState (s : PageState) : PageState :=
  if s.replaceStateWrapped then triggerDebouncedRescan (originalReplaceState s)
  else originalReplaceState s

/-- `cleanup()`: cancel any pending debounced rescan, disconnect the
mutation observer, remove the two navigation listeners, restore the two
original history methods exactly when they had been patched, and remove
the banner. -/
def cleanup (s : PageState) : PageState :=
  let s1 := { s with
    pendingRescan := false,
    observerConnected := false,
    popstateListener := false,
    hashchangeListener := false }
  let s2 :=
    if s1.historyPatched then
      { s1 with
        pushStateWrapped := false,
        replaceStateWrapped := false,
        historyPatched := false }
    else s1
  removeBanner s2

/-- `observeChanges()`: disconnect any prior observer and connect a
fresh one, register the two navigation listeners, and patch the two
history methods only when not already patched. -/
def observeChanges (s : PageState) : PageState :=
  let s1 := { s with
    observerConnected := true,
    popstateListener := true,
    hashchangeListener := true }
  if s1.historyPatched then s1
  else
    { s1 with
      pushStateWrapped := true,
      replaceStateWrapped := true,
      historyPatched := true }

/-- Every entry point of the content script that the host's event
queue can invoke after startup. -/
inductive PageOp where
  | scan
  | mutations (muts : List MutationRecord)
  | timer
  | popstate
  | hashchange
  | pushState
  | replaceState
  | install
  | teardown

/-- One event-queue step. -/
def stepOp (s : PageState) : PageOp → PageState
  | PageOp.scan => scanPage s
  | PageOp.mutations muts => deliverMutations s muts
  | PageOp.timer => timerFire s
  | PageOp.popstate => firePopstate s
  | PageOp.hashchange => fireHashchange s
  | PageOp.pushState => callPushState s
  | PageOp.replaceState => callReplaceState s
  | PageOp.install => observeChanges s
  | PageOp.teardown => cleanup s

/-- A whole event-queue history from a given state. -/
def runOps (s : PageState) (ops : List PageOp) : PageState :=
  ops.foldl stepOp s

/-- The state of a freshly loaded page with the given body, before the
content script has run. -/
def initialState (body : Node) : PageState :=
  { emDashCount := 0
    svgInjected := false
    sparkleInstalls := 0
    warningBanner := none
    body := body
    observerConnected := false
    pendingRescan := false
    popstateListener := false
    hashchangeListener := false
    historyPatched := false
    pushStateWrapped := false
    replaceStateWrapped := false
    historyEntries := 0 }

/-- The script's startup path once the document is ready:
`scanPage(); observeChanges();`. -/
def startup (body : Node) : PageState :=
  observeChanges (scanPage (initialState body))

/-- The development server's live-reload notifier state
(`src/unnamed/part_000`): `startupGrace` is set for roughly the first
second after server start (cleared by a one-second timer), and
`reloadsSent` counts reload messages delivered to connected clients. -/
structure DevServerState where
  startupGrace : Bool
  clientCount : Nat
  reloadsSent : Nat

/-- `notifyClients` of the development server: inside the debounced
body, a notification arriving while `startupGrace` is set is dropped
entirely; otherwise a reload message is enqueued to every connected
client. (Per-client enqueue failure, which silently removes the dead
client, is not exercised here.) -/
def notifyClients (d : DevServerState) : DevServerState :=
  if d.startupGrace then d
  else { d with reloadsSent := d.reloadsSent + d.clientCount }

/-- Em-dash count a text node contributes to the code's scan: counted
unless its immediate parent element carries one of the script's own
classes. `directK classes cs` is the count for the children `cs` of an
element with class list `classes`. -/
def directK (parentClasses : List String) : List Node → Nat
  | [] => 0
  | Node.text s :: rest =>
      (if isOwnClasses parentClasses then 0 else dashCount s) +
        directK parentClasses rest
  | Node.elem _ classes cs :: rest =>
      directK classes cs + directK parentClasses rest

/-- Modelled from the spec: the em-dash count of "the text content
outside existing highlight and banner elements" — text not lying under
(at any depth) an element carrying the highlight or banner class. This
is the measure the claims state; it is compared against the code's
`directK`, which only consults the immediate parent. -/
def specOutsideDashes : List Node → Nat
  | [] => 0
  | Node.text s :: rest => dashCount s + specOutsideDashes rest
  | Node.elem _ classes cs :: rest =>
      (if isOwnClasses classes then 0 else specOutsideDashes cs) +
        specOutsideDashes rest

theorem hasDash_false_dashCount {s : List Char} (h : hasDash s = false) :
    dashCount s = 0 := by
  induction s with
  | nil => rfl
  | cons c rest ih =>
    simp only [hasDash, Bool.or_eq_false_iff, decide_eq_false_iff_not] at h
    simp [dashCount, h.1, ih h.2]

theorem splitOnDash_ne_nil (s : List Char) : splitOnDash s ≠ [] := by
  induction s with
  | nil => simp [splitOnDash]
  | cons c rest ih =>
    by_cases hc : c = EM_DASH
    · simp [splitOnDash, hc]
    · cases h : splitOnDash rest with
      | nil => exact absurd h ih
      | cons p ps => simp [splitOnDash, hc, h]

theorem length_splitOnDash (s : List Char) :
    (splitOnDash s).length = dashCount s + 1 := by
  induction s with
  | nil => rfl
  | cons c rest ih =>
    by_cases hc : c = EM_DASH
    · simp [splitOnDash, hc, dashCount, ih]
      omega
    · cases h : splitOnDash rest with
      | nil => exact absurd h (splitOnDash_ne_nil rest)
      | cons p ps =>
        rw [h] at ih
        simp [splitOnDash, hc, h, dashCount, List.length] at ih ⊢
        omega

theorem joinWithDash_splitOnDash (s : List Char) :
    joinWithDash (splitOnDash s) = s := by
  induction s with
  | nil => rfl
  | cons c rest ih =>
    by_cases hc : c = EM_DASH
    · cases h : splitOnDash rest with
      | nil => exact absurd h (splitOnDash_ne_nil rest)
      | cons q ps =>
        rw [h] at ih
        simp [splitOnDash, hc, h, joinWithDash, ih]
    · cases h : splitOnDash rest with
      | nil => exact absurd h (splitOnDash_ne_nil rest)
      | cons p ps =>
        rw [h] at ih
        cases ps with
        | nil => simp [splitOnDash, hc, h, joinWithDash, joinWithDash] at ih ⊢; simp [ih]
        | cons q ps2 => simp [splitOnDash, hc, h, joinWithDash] at ih ⊢; simp [ih]

theorem textContentList_append (xs ys : List Node) :
    textContentList (xs ++ ys) = textContentList xs ++ textContentList ys := by
  induction xs with
  | nil => simp [textContentList]
  | cons n rest ih =>
    cases n with
    | text s => simp [textContentList, ih]
    | elem t c cs => simp [textContentList, ih]

theorem countHighlightsList_append (xs ys : List Node) :
    countHighlightsList (xs ++ ys) =
      countHighlightsList xs + countHighlightsList ys := by
  induction xs with
  | nil => simp [countHighlightsList]
  | cons n rest ih =>
    cases n with
    | text s => simp [countHighlightsList, ih]
    | elem t c cs => simp [countHighlightsList, ih]; omega

theorem textContentList_fragmentOfParts (ps : List (List Char)) :
    textContentList (fragmentOfParts ps) = joinWithDash ps := by
  induction ps with
  | nil => simp [fragmentOfParts, textContentList, joinWithDash]
  | cons p rest ih =>
    cases rest with
    | nil =>
      by_cases hp : p = [] <;>
        simp [fragmentOfParts, joinWithDash, textContentList, hp]
    | cons q ps2 =>
      by_cases hp : p = [] <;>
        simp [fragmentOfParts, joinWithDash, textContentList, hp,
          textContentList_append, highlightSpan, ih]

theorem countHighlightsList_fragmentOfParts (ps : List (List Char)) :
    countHighlightsList (fragmentOfParts ps) = ps.length - 1 := by
  induction ps with
  | nil => simp [fragmentOfParts, countHighlightsList]
  | cons p rest ih =>
    cases rest with
    | nil =>
      by_cases hp : p = [] <;>
        simp [fragmentOfParts, countHighlightsList, hp]
    | cons q ps2 =>
      by_cases hp : p = [] <;>
        · simp [fragmentOfParts, countHighlightsList, hp,
            countHighlightsList_append, highlightSpan, ih]
          omega

theorem walkList_textContent (pc : List String) (ns : List Node) :
    textContentList (walkList pc ns).1 = textContentList ns := by
  induction pc, ns using walkList.induct with
  | case1 pc => simp [walkList, textContentList]
  | case2 pc s rest ih =>
    by_cases ha : acceptText pc s = true
    · have hd : hasDash s = true := by
        simp [acceptText, Bool.and_eq_true] at ha
        exact ha.2
      simp [walkList, textContentList, ha, highlightTextNode, hd,
        textContentList_append, textContentList_fragmentOfParts,
        joinWithDash_splitOnDash, ih]
    · simp [walkList, textContentList, ha, textContentList_append, ih]
  | case3 pc tag classes cs rest ih1 ih2 =>
    simp [walkList, textContentList, ih1, ih2]

theorem walkList_count (pc : List String) (ns : List Node) :
    (walkList pc ns).2 = directK pc ns := by
  induction pc, ns using walkList.induct with
  | case1 pc => simp [walkList, directK]
  | case2 pc s rest ih =>
    by_cases ha : acceptText pc s = true
    · have hown : isOwnClasses pc = false := by
        simp [acceptText, Bool.and_eq_true] at ha
        exact ha.1
      have hd : hasDash s = true := by
        simp [acceptText, Bool.and_eq_true] at ha
        exact ha.2
      simp [walkList, directK, ha, highlightTextNode, hd, hown,
        length_splitOnDash, ih]
    · by_cases hown : isOwnClasses pc = true
      · simp [walkList, directK, ha, hown, ih]
      · have hd : hasDash s = false := by
          simp [acceptText] at ha
          simp at hown
          exact ha hown
        simp [walkList, directK, ha, hown,
          hasDash_false_dashCount hd, ih]
  | case3 pc tag classes cs rest ih1 ih2 =>
    simp [walkList, directK, ih1, ih2]

theorem walkList_highlights (pc : List String) (ns : List Node) :
    countHighlightsList (walkList pc ns).1 =
      countHighlightsList ns + (walkList pc ns).2 := by
  induction pc, ns using walkList.induct with
  | case1 pc => simp [walkList, countHighlightsList]
  | case2 pc s rest ih =>
    by_cases ha : acceptText pc s = true
    · have hd : hasDash s = true := by
        simp [acceptText, Bool.and_eq_true] at ha
        exact ha.2
      simp [walkList, countHighlightsList, ha, highlightTextNode, hd,
        countHighlightsList_append, countHighlightsList_fragmentOfParts, ih]
      omega
    · simp [walkList, countHighlightsList, ha, countHighlightsList_append, ih]
  | case3 pc tag classes cs rest ih1 ih2 =>
    simp [walkList, countHighlightsList, ih1, ih2]
    omega

theorem walkTextNodes_textContent (n : Node) :
    textContent (walkTextNodes n).1 = textContent n := by
  cases n with
  | text s => rfl
  | elem tag classes cs =>
    by_cases h : tag ∈ skipTags
    · simp [walkTextNodes, h]
    · simp [walkTextNodes, h, textContent, textContentList,
        walkList_textContent]

theorem walkTextNodes_count (tag : String) (classes : List String)
    (cs : List Node) (h : skipTags.contains tag = false) :
    (walkTextNodes (Node.elem tag classes cs)).2 = directK classes cs := by
  have h2 : ¬ tag ∈ skipTags := by simpa using h
  simp [walkTextNodes, h2, walkList_count]

theorem walkTextNodes_highlights (n : Node) :
    countHighlights (walkTextNodes n).1 =
      countHighlights n + (walkTextNodes n).2 := by
  cases n with
  | text s => rfl
  | elem tag classes cs =>
    by_cases h : tag ∈ skipTags
    · simp [walkTextNodes, h]
    · simp [walkTextNodes, h, countHighlights, countHighlightsList,
        walkList_highlights]
      omega

@[simp]
theorem updateWarningBanner_emDashCount (s : PageState) :
    (updateWarningBanner s).emDashCount = s.emDashCount := by
  unfold updateWarningBanner removeBanner
  split
  · rfl
  · split <;> rfl

@[simp]
theorem updateWarningBanner_body (s : PageState) :
    (updateWarningBanner s).body = s.body := by
  unfold updateWarningBanner removeBanner
  split
  · rfl
  · split <;> rfl

@[simp]
theorem updateWarningBanner_svgInjected (s : PageState) :
    (updateWarningBanner s).svgInjected = s.svgInjected := by
  unfold updateWarningBanner removeBanner
  split
  · rfl
  · split <;> rfl

@[simp]
theorem updateWarningBanner_sparkleInstalls (s : PageState) :
    (updateWarningBanner s).sparkleInstalls = s.sparkleInstalls := by
  unfold updateWarningBanner removeBanner
  split
  · rfl
  · split <;> rfl

@[simp]
theorem injectSparkleSvg_emDashCount (s : PageState) :
    (injectSparkleSvg s).emDashCount = s.emDashCount := by
  unfold injectSparkleSvg
  split <;> rfl

@[simp]
theorem injectSparkleSvg_body (s : PageState) :
    (injectSparkleSvg s).body = s.body := by
  unfold injectSparkleSvg
  split <;> rfl

@[simp]
theorem injectSparkleSvg_warningBanner (s : PageState) :
    (injectSparkleSvg s).warningBanner = s.warningBanner := by
  unfold injectSparkleSvg
  split <;> rfl

theorem scanPage_emDashCount (s : PageState) :
    (scanPage s).emDashCount = (walkTextNodes s.body).2 := by
  unfold scanPage
  by_cases h : 0 < (walkTextNodes s.body).2 <;> simp [h]

theorem scanPage_body (s : PageState) :
    (scanPage s).body = (walkTextNodes s.body).1 := by
  unfold scanPage
  by_cases h : 0 < (walkTextNodes s.body).2 <;> simp [h]

theorem scanPage_textContent (s : PageState) :
    textContent (scanPage s).body = textContent s.body := by
  rw [scanPage_body, walkTextNodes_textContent]

theorem scanPage_highlights (s : PageState) :
    countHighlights (scanPage s).body =
      countHighlights s.body + (scanPage s).emDashCount := by
  rw [scanPage_body, scanPage_emDashCount, walkTextNodes_highlights]

theorem scanPage_warningBanner_of_zero (s : PageState)
    (h : (walkTextNodes s.body).2 = 0) :
    (scanPage s).warningBanner = none := by
  unfold scanPage
  simp [h, updateWarningBanner, removeBanner]

theorem scanPage_svgInjected (s : PageState) :
    (scanPage s).svgInjected =
      (s.svgInjected || decide (0 < (walkTextNodes s.body).2)) := by
  unfold scanPage
  by_cases hc : 0 < (walkTextNodes s.body).2 <;>
    by_cases hj : s.svgInjected <;>
      simp [injectSparkleSvg, hc, hj]

theorem scanPage_sparkleInstalls (s : PageState) :
    (scanPage s).sparkleInstalls =
      if s.svgInjected = false ∧ 0 < (walkTextNodes s.body).2 then
        s.sparkleInstalls + 1
      else s.sparkleInstalls := by
  unfold scanPage
  by_cases hc : 0 < (walkTextNodes s.body).2 <;>
    by_cases hj : s.svgInjected <;>
      simp [injectSparkleSvg, hc, hj]

theorem handleMutations_svgInjected (s : PageState)
    (muts : List MutationRecord) :
    (handleMutations s muts).svgInjected = s.svgInjected := by
  simp only [handleMutations]
  split
  · simp [triggerDebouncedRescan]
  · split <;> simp

theorem handleMutations_sparkleInstalls (s : PageState)
    (muts : List MutationRecord) :
    (handleMutations s muts).sparkleInstalls = s.sparkleInstalls := by
  simp only [handleMutations]
  split
  · simp [triggerDebouncedRescan]
  · split <;> simp

theorem handleMutations_count_mono (s : PageState)
    (muts : List MutationRecord) :
    s.emDashCount ≤ (handleMutations s muts).emDashCount := by
  simp only [handleMutations]
  split
  · simp [triggerDebouncedRescan]
  · split <;> simp

theorem handleMutations_single_added (s : PageState) (tag : String)
    (classes : List String) (cs : List Node)
    (hh : classes.contains "mdash-highlight" = false)
    (hb : classes.contains "mdash-warning-banner" = false) :
    handleMutations s [MutationRecord.mk [] [Node.elem tag classes cs]] =
      updateWarningBanner { s with
        body := appendToBody s.body
          [(walkTextNodes (Node.elem tag classes cs)).1],
        emDashCount :=
          s.emDashCount + (walkTextNodes (Node.elem tag classes cs)).2 } := by
  have hh2 : ¬ "mdash-highlight" ∈ classes := by simpa using hh
  have hb2 : ¬ "mdash-warning-banner" ∈ classes := by simpa using hb
  simp only [handleMutations, removedNeedsFullRescan]
  simp [processAdded, hh2, hb2]

/-- The state-space invariant behind the one-time sparkle injection:
the CSS custom property has been set exactly once when `svgInjected`
holds and never otherwise. -/
def sparkleConsistent (s : PageState) : Prop :=
  s.sparkleInstalls = if s.svgInjected then 1 else 0

theorem scanPage_sparkleConsistent (s : PageState)
    (h : sparkleConsistent s) : sparkleConsistent (scanPage s) := by
  unfold sparkleConsistent at h ⊢
  rw [scanPage_sparkleInstalls, scanPage_svgInjected]
  by_cases hj : s.svgInjected <;>
    by_cases hc : 0 < (walkTextNodes s.body).2 <;>
      simp [hj, hc] at h ⊢ <;> simp [h]

theorem stepOp_sparkleConsistent (s : PageState) (op : PageOp)
    (h : sparkleConsistent s) : sparkleConsistent (stepOp s op) := by
  cases op with
  | scan => exact scanPage_sparkleConsistent s h
  | mutations muts =>
    simp only [stepOp, deliverMutations]
    split
    · unfold sparkleConsistent at h ⊢
      rw [handleMutations_sparkleInstalls, handleMutations_svgInjected]
      exact h
    · exact h
  | timer =>
    simp only [stepOp, timerFire]
    split
    · exact scanPage_sparkleConsistent _ h
    · exact h
  | popstate =>
    simp only [stepOp, firePopstate, triggerDebouncedRescan]
    split <;> exact h
  | hashchange =>
    simp only [stepOp, fireHashchange, triggerDebouncedRescan]
    split <;> exact h
  | pushState =>
    simp only [stepOp, callPushState, triggerDebouncedRescan, originalPushState]
    split <;> exact h
  | replaceState =>
    simp only [stepOp, callReplaceState, triggerDebouncedRescan,
      originalReplaceState]
    split <;> exact h
  | install =>
    simp only [stepOp, observeChanges]
    split <;> exact h
  | teardown =>
    simp only [stepOp, cleanup, removeBanner]
    split <;> exact h

theorem runOps_sparkleConsistent (ops : List PageOp) (s : PageState)
    (h : sparkleConsistent s) : sparkleConsistent (runOps s ops) := by
  induction ops generalizing s with
  | nil => exact h
  | cons op rest ih => exact ih (stepOp s op) (stepOp_sparkleConsistent s op h)

/-! ## Claims -/

/-- A body whose only em-dash sits in a span nested one level below an
element carrying the highlight class: the dash is inside a highlight
element, but its immediate parent is the plain span. -/
def nestedHighlightBody : Node :=
  Node.elem "BODY" []
    [Node.elem "DIV" ["mdash-highlight"]
      [Node.elem "SPAN" [] [Node.text [EM_DASH]]]]

/-- Claim C1, counterexample to the claim as stated: in
`nestedHighlightBody` the text content outside highlight and banner
elements contains zero em-dashes, yet `scanPage` leaves the counter at
1 (and creates a highlight element), because the walker's filter only
consults the immediate parent's class list, not ancestors. -/
theorem scanPage_outside_measure_counterexample :
    specOutsideDashes [nestedHighlightBody] = 0 ∧
    (scanPage (initialState nestedHighlightBody)).emDashCount = 1 := by
  constructor
  · simp [nestedHighlightBody, specOutsideDashes, isOwnClasses, dashCount,
      EM_DASH]
  · simp [scanPage_emDashCount, initialState, nestedHighlightBody,
      walkTextNodes, walkList, skipTags, acceptText, isOwnClasses, hasDash,
      EM_DASH, highlightTextNode, splitOnDash]

/-- Claim C1 (amended): for every document body in which exactly `k`
em-dash occurrences lie in text nodes whose immediate parent element
does not carry the highlight or banner class, `scanPage` creates
exactly `k` highlight elements, leaves the counter at `k`, and
preserves the body's concatenated text content in document order. -/
theorem scanPage_counts_and_preserves_text (s : PageState) (tag : String)
    (classes : List String) (cs : List Node) (k : Nat)
    (hbody : s.body = Node.elem tag classes cs)
    (htag : skipTags.contains tag = false)
    (hk : directK classes cs = k) :
    (scanPage s).emDashCount = k ∧
    countHighlights (scanPage s).body = countHighlights s.body + k ∧
    textContent (scanPage s).body = textContent s.body := by
  have hcount : (scanPage s).emDashCount = k := by
    rw [scanPage_emDashCount, hbody, walkTextNodes_count _ _ _ htag, hk]
  refine ⟨hcount, ?_, scanPage_textContent s⟩
  rw [scanPage_highlights, hcount]

/-- The spec's own example body, with text `a—b—c`. -/
def exampleBody : Node :=
  Node.elem "BODY" [] [Node.text ['a', EM_DASH, 'b', EM_DASH, 'c']]

/-- Claim C1, witness: on the body with text `a—b—c`, the scan yields
counter 2, two new highlight elements, and unchanged text content. -/
theorem scanPage_counts_and_preserves_text_witness :
    (scanPage (initialState exampleBody)).emDashCount = 2 ∧
    countHighlights (scanPage (initialState exampleBody)).body =
      countHighlights (initialState exampleBody).body + 2 ∧
    textContent (scanPage (initialState exampleBody)).body =
      textContent (initialState exampleBody).body :=
  scanPage_counts_and_preserves_text (initialState exampleBody) "BODY" []
    [Node.text ['a', EM_DASH, 'b', EM_DASH, 'c']] 2 rfl (by decide)
    (by simp [directK, isOwnClasses, dashCount, EM_DASH])

/-- A scanned root whose skip-listed element is a descendant: a div
containing a script whose text holds one em-dash. -/
def divWithScript : Node :=
  Node.elem "DIV" []
    [Node.elem "SCRIPT" [] [Node.text ['a', EM_DASH, 'b']]]

/-- Claim C2: the code violates it. The skip-tag guard of
`walkTextNodes` fires only when the root element itself is
skip-listed; the tree walker never consults the tags of descendant
elements. Scanning a div that contains a script with `a—b` increments
the counter by 1 and rewrites the text inside the script, while
scanning the script element itself as root is correctly skipped. -/
theorem walkTextNodes_descends_into_script :
    (walkTextNodes divWithScript).2 = 1 ∧
    (walkTextNodes divWithScript).1 =
      Node.elem "DIV" []
        [Node.elem "SCRIPT" []
          [Node.text ['a'], highlightSpan, Node.text ['b']]] ∧
    (walkTextNodes
      (Node.elem "SCRIPT" [] [Node.text ['a', EM_DASH, 'b']])).2 = 0 := by
  refine ⟨?_, ?_, ?_⟩ <;>
    simp [divWithScript, walkTextNodes, walkList, skipTags, acceptText,
      isOwnClasses, hasDash, EM_DASH, highlightTextNode, splitOnDash,
      fragmentOfParts, highlightSpan]

/-- A plain body with text `a—b`. -/
def plainDashBody : Node :=
  Node.elem "BODY" [] [Node.text ['a', EM_DASH, 'b']]

/-- The state after the first full scan of `plainDashBody`, written
out: counter 1, sparkle installed, banner showing 1, and the single
em-dash wrapped in a highlight span. -/
theorem firstScanState :
    scanPage (initialState plainDashBody) =
      { emDashCount := 1
        svgInjected := true
        sparkleInstalls := 1
        warningBanner := some (BannerEl.mk bannerWarningText (toString (1 : Nat)))
        body := Node.elem "BODY" [] [Node.text ['a'], highlightSpan, Node.text ['b']]
        observerConnected := false
        pendingRescan := false
        popstateListener := false
        hashchangeListener := false
        historyPatched := false
        pushStateWrapped := false
        replaceStateWrapped := false
        historyEntries := 0 } := by
  simp [scanPage, initialState, plainDashBody, walkTextNodes, walkList,
    skipTags, acceptText, isOwnClasses, hasDash, EM_DASH, highlightTextNode,
    splitOnDash, fragmentOfParts, injectSparkleSvg, updateWarningBanner,
    removeBanner, bannerWarningText]

/-- Claim C3: the code violates it. After a first `scanPage` the only
em-dash lives inside a highlight span, whose text the filter rejects,
so an immediate second `scanPage` counts zero: the counter drops from
1 to 0 and the banner is removed, even though the single highlight
element is still in the document. -/
theorem scanPage_twice_zeroes_counter :
    (scanPage (initialState plainDashBody)).emDashCount = 1 ∧
    (scanPage (initialState plainDashBody)).warningBanner.isSome = true ∧
    countHighlights (scanPage (initialState plainDashBody)).body = 1 ∧
    (scanPage (scanPage (initialState plainDashBody))).emDashCount = 0 ∧
    (scanPage (scanPage (initialState plainDashBody))).warningBanner = none ∧
    countHighlights
      (scanPage (scanPage (initialState plainDashBody))).body = 1 := by
  rw [firstScanState]
  have hwalk :
      (walkTextNodes (Node.elem "BODY" []
        [Node.text ['a'], Node.elem "SPAN" ["mdash-highlight"]
          [Node.text [EM_DASH]], Node.text ['b']])).2 = 0 := by
    simp [walkTextNodes, walkList, skipTags, acceptText, isOwnClasses,
      hasDash, EM_DASH, highlightTextNode, splitOnDash, highlightSpan]
  refine ⟨rfl, rfl, ?_, ?_, ?_, ?_⟩
  · simp [countHighlights, countHighlightsList, highlightSpan]
  · rw [scanPage_emDashCount]
    exact hwalk
  · exact scanPage_warningBanner_of_zero _ hwalk
  · rw [scanPage_highlights, scanPage_emDashCount]
    simp [hwalk, countHighlights, countHighlightsList, highlightSpan]

/-- Claim C4: after every call to `updateWarningBanner` the banner
exists exactly when the counter is positive, and when the counter is
nonzero and a banner already exists only its displayed count is
rewritten — every other part of the banner element is preserved, the
element is not recreated. -/
theorem updateWarningBanner_presence_and_in_place (s : PageState) :
    ((updateWarningBanner s).warningBanner.isSome ↔ 0 < s.emDashCount) ∧
    (∀ b : BannerEl, s.warningBanner = some b → s.emDashCount ≠ 0 →
      (updateWarningBanner s).warningBanner =
        some (BannerEl.mk b.warningText (toString s.emDashCount))) := by
  constructor
  · unfold updateWarningBanner removeBanner
    by_cases h : s.emDashCount = 0
    · simp [h]
    · cases hb : s.warningBanner <;> simp [h, hb] <;> omega
  · intro b hb hc
    unfold updateWarningBanner removeBanner
    simp [hc, hb]

/-- A state holding a banner created earlier (displaying `1`) while
the counter has meanwhile reached 2. -/
def bannerDemoState : PageState :=
  { initialState (Node.elem "BODY" [] []) with
    emDashCount := 2,
    warningBanner := some (BannerEl.mk bannerWarningText "1") }

/-- Claim C4, witness: with a banner present and a counter of 2, the
update keeps the banner and rewrites only the displayed count. -/
theorem updateWarningBanner_presence_and_in_place_witness :
    ((updateWarningBanner bannerDemoState).warningBanner.isSome ↔
      0 < bannerDemoState.emDashCount) ∧
    (updateWarningBanner bannerDemoState).warningBanner =
      some (BannerEl.mk bannerWarningText (toString 2)) :=
  ⟨(updateWarningBanner_presence_and_in_place bannerDemoState).1,
    (updateWarningBanner_presence_and_in_place bannerDemoState).2
      (BannerEl.mk bannerWarningText "1") rfl (by decide)⟩

/-- Claim C7, counterexample to the claim as stated: applying
`highlightTextNode` to a parentless text node with text `a—b` leaves
the DOM untouched and throws nothing, but the counter has already been
incremented by 1 — the increment precedes the parent check. -/
theorem highlightTextNode_no_parent_counterexample :
    (highlightTextNode false ['a', EM_DASH, 'b']).1 =
      [Node.text ['a', EM_DASH, 'b']] ∧
    (highlightTextNode false ['a', EM_DASH, 'b']).2 = 1 :=
  ⟨rfl, rfl⟩

/-- Claim C7 (amended): on a text node whose parent is absent the
operation throws nothing and leaves the DOM unchanged, but it is not
atomic — the occurrence counter is still incremented by the node's
match count, because `emDashCount += matches` runs before the guarded
`parentNode?.replaceChild`. -/
theorem highlightTextNode_no_parent_increments (s : List Char) :
    (highlightTextNode false s).1 = [Node.text s] ∧
    (highlightTextNode false s).2 = dashCount s := by
  by_cases h : hasDash s = true
  · simp [highlightTextNode, h, length_splitOnDash]
  · have h2 : hasDash s = false := by simpa using h
    simp [highlightTextNode, h2, hasDash_false_dashCount h2]

/-- A body with no em-dash, used as the page the script starts on. -/
def smallBody : Node := Node.elem "BODY" [] [Node.text ['p']]

/-- The state right after startup on `smallBody`: nothing found,
observer connected, listeners registered, history patched. -/
theorem startupState :
    startup smallBody =
      { emDashCount := 0
        svgInjected := false
        sparkleInstalls := 0
        warningBanner := none
        body := Node.elem "BODY" [] [Node.text ['p']]
        observerConnected := true
        pendingRescan := false
        popstateListener := true
        hashchangeListener := true
        historyPatched := true
        pushStateWrapped := true
        replaceStateWrapped := true
        historyEntries := 0 } := by
  simp [startup, observeChanges, scanPage, initialState, smallBody,
    walkTextNodes, walkList, skipTags, acceptText, isOwnClasses, hasDash,
    EM_DASH, highlightTextNode, splitOnDash, injectSparkleSvg,
    updateWarningBanner, removeBanner]

/-- A subtree with text `x—y`, added to the page by a mutation. -/
def addedPara : Node := Node.elem "P" [] [Node.text ['x', EM_DASH, 'y']]

/-- The state after the first mutation batch after startup adds
`addedPara` — the page's first em-dash arrives through the incremental
path. -/
def incrementalMatchState : PageState :=
  deliverMutations (startup smallBody) [MutationRecord.mk [] [addedPara]]

/-- `incrementalMatchState`, written out: the em-dash was counted and
highlighted and the banner created, but the sparkle background was
never installed. -/
theorem incrementalMatchState_eq :
    incrementalMatchState =
      { emDashCount := 1
        svgInjected := false
        sparkleInstalls := 0
        warningBanner := some (BannerEl.mk bannerWarningText (toString (1 : Nat)))
        body := Node.elem "BODY" []
          [Node.text ['p'],
            Node.elem "P" [] [Node.text ['x'], highlightSpan, Node.text ['y']]]
        observerConnected := true
        pendingRescan := false
        popstateListener := true
        hashchangeListener := true
        historyPatched := true
        pushStateWrapped := true
        replaceStateWrapped := true
        historyEntries := 0 } := by
  unfold incrementalMatchState
  rw [startupState]
  simp only [addedPara]
  rw [show (deliverMutations
      { emDashCount := 0, svgInjected := false, sparkleInstalls := 0,
        warningBanner := none,
        body := Node.elem "BODY" [] [Node.text ['p']],
        observerConnected := true, pendingRescan := false,
        popstateListener := true, hashchangeListener := true,
        historyPatched := true, pushStateWrapped := true,
        replaceStateWrapped := true, historyEntries := 0 }
      [MutationRecord.mk []
        [Node.elem "P" [] [Node.text ['x', EM_DASH, 'y']]]]) =
    handleMutations
      { emDashCount := 0, svgInjected := false, sparkleInstalls := 0,
        warningBanner := none,
        body := Node.elem "BODY" [] [Node.text ['p']],
        observerConnected := true, pendingRescan := false,
        popstateListener := true, hashchangeListener := true,
        historyPatched := true, pushStateWrapped := true,
        replaceStateWrapped := true, historyEntries := 0 }
      [MutationRecord.mk []
        [Node.elem "P" [] [Node.text ['x', EM_DASH, 'y']]]]
    from by simp [deliverMutations]]
  rw [handleMutations_single_added _ "P" [] [Node.text ['x', EM_DASH, 'y']]
    rfl rfl]
  simp [walkTextNodes, walkList, skipTags, acceptText, isOwnClasses, hasDash,
    EM_DASH, highlightTextNode, splitOnDash, fragmentOfParts, highlightSpan,
    appendToBody, updateWarningBanner, removeBanner, bannerWarningText]

/-- Claim C5, counterexample to the claim as stated: the page's first
em-dash match is found by the incremental mutation path (the counter
rises to 1 and a highlight element exists), yet the sparkle background
is not installed — `injectSparkleSvg` is called only from `scanPage`,
never from the mutation handler's incremental path. -/
theorem sparkle_missing_after_incremental_first_match :
    incrementalMatchState.emDashCount = 1 ∧
    countHighlights incrementalMatchState.body = 1 ∧
    incrementalMatchState.svgInjected = false ∧
    incrementalMatchState.sparkleInstalls = 0 := by
  rw [incrementalMatchState_eq]
  refine ⟨rfl, ?_, rfl, rfl⟩
  simp [countHighlights, countHighlightsList, highlightSpan]

/-- Claim C5 (amended): the sparkle background is installed only by
full scans: over every event history from a fresh page it is installed
at most once; the mutation handler never installs it; and a `scanPage`
call installs it exactly when it is not yet installed and the scan's
final count is positive. -/
theorem sparkle_installed_once_by_full_scans_only :
    (∀ (body : Node) (ops : List PageOp),
      (runOps (initialState body) ops).sparkleInstalls ≤ 1) ∧
    (∀ (s : PageState) (muts : List MutationRecord),
      (deliverMutations s muts).svgInjected = s.svgInjected ∧
      (deliverMutations s muts).sparkleInstalls = s.sparkleInstalls) ∧
    (∀ s : PageState,
      (scanPage s).svgInjected =
        (s.svgInjected || decide (0 < (scanPage s).emDashCount)) ∧
      (scanPage s).sparkleInstalls =
        if s.svgInjected = false ∧ 0 < (scanPage s).emDashCount then
          s.sparkleInstalls + 1
        else s.sparkleInstalls) := by
  refine ⟨?_, ?_, ?_⟩
  · intro body ops
    have h := runOps_sparkleConsistent ops (initialState body)
      (by simp [sparkleConsistent, initialState])
    unfold sparkleConsistent at h
    rw [h]
    split <;> omega
  · intro s muts
    unfold deliverMutations
    split
    · exact ⟨handleMutations_svgInjected s muts,
        handleMutations_sparkleInstalls s muts⟩
    · exact ⟨rfl, rfl⟩
  · intro s
    constructor
    · rw [scanPage_svgInjected, scanPage_emDashCount]
    · rw [scanPage_sparkleInstalls, scanPage_emDashCount]

/-- Claim C6: the mutation-observer entry points are purely additive —
the counter never decreases across a delivered batch — and delivering
a batch that adds one subtree holding exactly one countable em-dash
raises the counter by exactly 1 while the body's pre-existing children
(and any highlight elements in them) are left untouched, the processed
subtree being appended after them. -/
theorem incremental_add_increments_by_one (s : PageState) (tag : String)
    (classes : List String) (cs : List Node)
    (hobs : s.observerConnected = true)
    (hh : classes.contains "mdash-highlight" = false)
    (hb : classes.contains "mdash-warning-banner" = false)
    (htag : skipTags.contains tag = false)
    (hk : directK classes cs = 1) :
    (∀ (s2 : PageState) (muts : List MutationRecord),
      s2.emDashCount ≤ (deliverMutations s2 muts).emDashCount) ∧
    (deliverMutations s
      [MutationRecord.mk [] [Node.elem tag classes cs]]).emDashCount =
      s.emDashCount + 1 ∧
    (deliverMutations s
      [MutationRecord.mk [] [Node.elem tag classes cs]]).body =
      appendToBody s.body [(walkTextNodes (Node.elem tag classes cs)).1] := by
  have hrun : deliverMutations s
      [MutationRecord.mk [] [Node.elem tag classes cs]] =
      handleMutations s [MutationRecord.mk [] [Node.elem tag classes cs]] := by
    simp [deliverMutations, hobs]
  refine ⟨?_, ?_, ?_⟩
  · intro s2 muts
    unfold deliverMutations
    split
    · exact handleMutations_count_mono s2 muts
    · exact Nat.le_refl _
  · rw [hrun, handleMutations_single_added s tag classes cs hh hb]
    simp [walkTextNodes_count tag classes cs htag, hk]
  · rw [hrun, handleMutations_single_added s tag classes cs hh hb]
    simp

/-- A page state with the observer connected and one pre-existing
highlight element in the body. -/
def observedState : PageState :=
  { initialState (Node.elem "BODY" [] [highlightSpan]) with
    observerConnected := true }

/-- Claim C6, witness: on `observedState`, adding a paragraph with
text `x—y` raises the counter from 0 to 1 and appends the processed
subtree after the untouched existing children. -/
theorem incremental_add_increments_by_one_witness :
    (∀ (s2 : PageState) (muts : List MutationRecord),
      s2.emDashCount ≤ (deliverMutations s2 muts).emDashCount) ∧
    (deliverMutations observedState
      [MutationRecord.mk []
        [Node.elem "P" [] [Node.text ['x', EM_DASH, 'y']]]]).emDashCount =
      observedState.emDashCount + 1 ∧
    (deliverMutations observedState
      [MutationRecord.mk []
        [Node.elem "P" [] [Node.text ['x', EM_DASH, 'y']]]]).body =
      appendToBody observedState.body
        [(walkTextNodes (Node.elem "P" []
          [Node.text ['x', EM_DASH, 'y']])).1] :=
  incremental_add_increments_by_one observedState "P" []
    [Node.text ['x', EM_DASH, 'y']] rfl rfl rfl (by decide)
    (by simp [directK, isOwnClasses, dashCount, EM_DASH])

/-- Claim C8: after `cleanup` runs, the pending debounced rescan is
cancelled, the observer is disconnected, both navigation listeners are
removed, the banner is gone, and the history methods are unwrapped
(they had been wrapped exactly together with the `historyPatched`
flag); consequently any later mutation batch, timer expiry or
navigation event changes nothing, and calling the history methods
behaves exactly like the unpatched originals. -/
theorem cleanup_tears_everything_down (s : PageState)
    (hpw : s.pushStateWrapped = s.historyPatched)
    (hrw : s.replaceStateWrapped = s.historyPatched) :
    (cleanup s).pendingRescan = false ∧
    (cleanup s).observerConnected = false ∧
    (cleanup s).popstateListener = false ∧
    (cleanup s).hashchangeListener = false ∧
    (cleanup s).warningBanner = none ∧
    (cleanup s).pushStateWrapped = false ∧
    (cleanup s).replaceStateWrapped = false ∧
    (∀ muts : List MutationRecord,
      deliverMutations (cleanup s) muts = cleanup s) ∧
    timerFire (cleanup s) = cleanup s ∧
    firePopstate (cleanup s) = cleanup s ∧
    fireHashchange (cleanup s) = cleanup s ∧
    callPushState (cleanup s) = originalPushState (cleanup s) ∧
    callReplaceState (cleanup s) = originalReplaceState (cleanup s) := by
  have h1 : (cleanup s).pendingRescan = false := by
    unfold cleanup removeBanner
    by_cases h : s.historyPatched <;> simp [h]
  have h2 : (cleanup s).observerConnected = false := by
    unfold cleanup removeBanner
    by_cases h : s.historyPatched <;> simp [h]
  have h3 : (cleanup s).popstateListener = false := by
    unfold cleanup removeBanner
    by_cases h : s.historyPatched <;> simp [h]
  have h4 : (cleanup s).hashchangeListener = false := by
    unfold cleanup removeBanner
    by_cases h : s.historyPatched <;> simp [h]
  have h5 : (cleanup s).warningBanner = none := by
    unfold cleanup removeBanner
    by_cases h : s.historyPatched <;> simp [h]
  have h6 : (cleanup s).pushStateWrapped = false := by
    unfold cleanup removeBanner
    by_cases h : s.historyPatched <;> simp [h, hpw]
  have h7 : (cleanup s).replaceStateWrapped = false := by
    unfold cleanup removeBanner
    by_cases h : s.historyPatched <;> simp [h, hrw]
  refine ⟨h1, h2, h3, h4, h5, h6, h7, ?_, ?_, ?_, ?_, ?_, ?_⟩
  · intro muts
    simp [deliverMutations, h2]
  · simp [timerFire, h1]
  · simp [firePopstate, h3]
  · simp [fireHashchange, h4]
  · simp [callPushState, h6]
  · simp [callReplaceState, h7]

/-- A fully installed page state with a pending rescan and a banner,
right before teardown. -/
def installedState : PageState :=
  { initialState (Node.elem "BODY" [] [highlightSpan]) with
    emDashCount := 1,
    warningBanner := some (BannerEl.mk bannerWarningText "1"),
    observerConnected := true,
    pendingRescan := true,
    popstateListener := true,
    hashchangeListener := true,
    historyPatched := true,
    pushStateWrapped := true,
    replaceStateWrapped := true }

/-- Claim C8, witness: tearing down `installedState` clears every
piece of installed state and makes every later event a no-op, with the
history methods acting as the originals. -/
theorem cleanup_tears_everything_down_witness :
    (cleanup installedState).pendingRescan = false ∧
    (cleanup installedState).observerConnected = false ∧
    (cleanup installedState).popstateListener = false ∧
    (cleanup installedState).hashchangeListener = false ∧
    (cleanup installedState).warningBanner = none ∧
    (cleanup installedState).pushStateWrapped = false ∧
    (cleanup installedState).replaceStateWrapped = false ∧
    deliverMutations (cleanup installedState)
      [MutationRecord.mk [] [addedPara]] = cleanup installedState ∧
    timerFire (cleanup installedState) = cleanup installedState ∧
    firePopstate (cleanup installedState) = cleanup installedState ∧
    fireHashchange (cleanup installedState) = cleanup installedState ∧
    callPushState (cleanup installedState) =
      originalPushState (cleanup installedState) ∧
    callReplaceState (cleanup installedState) =
      originalReplaceState (cleanup installedState) := by
  obtain ⟨h1, h2, h3, h4, h5, h6, h7, h8, h9, h10, h11, h12, h13⟩ :=
    cleanup_tears_everything_down installedState rfl rfl
  exact ⟨h1, h2, h3, h4, h5, h6, h7,
    h8 [MutationRecord.mk [] [addedPara]], h9, h10, h11, h12, h13⟩

/-- Claim C9, counterexample to the claim as stated: the content
script's mutation watcher has no startup grace period. The very first
mutation batch delivered after startup — inside any one-second
window — is processed in full: the added em-dash is counted and
highlighted, not suppressed. -/
theorem mutation_processed_during_first_second :
    (startup smallBody).emDashCount = 0 ∧
    incrementalMatchState.emDashCount = 1 ∧
    incrementalMatchState.warningBanner.isSome = true := by
  rw [startupState, incrementalMatchState_eq]
  exact ⟨rfl, rfl, rfl⟩

/-- Claim C9 (amended): the roughly-one-second startup grace period
belongs to the development server's live-reload notifier
(`src/unnamed/part_000`), which drops client notifications while the
grace flag is set and delivers them once it clears; the content
script's mutation watcher has no such suppression — while the observer
is connected, every delivered batch runs the handler immediately. -/
theorem startup_grace_only_in_devserver (d : DevServerState)
    (hg : d.startupGrace = true) (s : PageState)
    (hobs : s.observerConnected = true) (muts : List MutationRecord) :
    notifyClients d = d ∧
    notifyClients { d with startupGrace := false } =
      { d with
        startupGrace := false,
        reloadsSent := d.reloadsSent + d.clientCount } ∧
    deliverMutations s muts = handleMutations s muts := by
  refine ⟨?_, ?_, ?_⟩
  · simp [notifyClients, hg]
  · simp [notifyClients]
  · simp [deliverMutations, hobs]

/-- Claim C9, witness: a dev server inside its grace period drops the
notification; the content script's connected watcher still runs its
handler. -/
theorem startup_grace_only_in_devserver_witness :
    notifyClients (DevServerState.mk true 3 0) =
      DevServerState.mk true 3 0 ∧
    notifyClients { DevServerState.mk true 3 0 with startupGrace := false } =
      { DevServerState.mk true 3 0 with
        startupGrace := false,
        reloadsSent := 0 + 3 } ∧
    deliverMutations observedState [] = handleMutations observedState [] :=
  startup_grace_only_in_devserver (DevServerState.mk true 3 0) rfl
    observedState rfl []

/-- Claim C10: `cleanup` is idempotent — a second call right after a
first one changes nothing, every branch being guarded by state the
first call already cleared. -/
theorem cleanup_idempotent (s : PageState) : cleanup (cleanup s) = cleanup s := by
  unfold cleanup removeBanner
  by_cases h : s.historyPatched <;> simp [h]

end MDash
